import Mathlib

/-!
Shallow embedding of the `ascolt-macros` proc-macro crate (src/lib.rs).

The crate exposes three code generators:
* `ask_handler`  — attribute macro on a function, emits an
  `AskHandlerTrait<M, R, E> for Actor` implementation;
* `tell_handler` — attribute macro on a function, emits a
  `TellHandlerTrait<M, E> for Actor` implementation;
* `derive_actor` — derive macro, emits `ActorTrait<E> for Name \x7b\x7d`.

Panics in the source are modelled as `Except` errors, one constructor per
panic site.  Syntax trees (`syn::Type`, parameters, return types, attribute
metas) are modelled just deeply enough that every structural inspection the
source performs is visible.
-/

namespace Ascolt

/-- Model of `syn::Type`: a reference wrapper (`syn::Type::Reference`, which
`strip_reference` unwraps, keeping its mutability flag abstracted as a Bool),
a path type (`syn::Type::Path`) as a list of segments, each an identifier with
optional angle-bracketed generic arguments, or any other `Type` variant,
opaque to the generator and tagged by a number. -/
inductive TypeExpr : Type where
  | typeRef (mutab : Bool) (elem : TypeExpr)
  | typePath (segments : List (String × Option (List TypeExpr)))
  | typeOther (tag : Nat)


/-- Model of `syn::FnArg`: a receiver (`self`-like, carrying its type, as in
`receiver.ty`) or a typed parameter whose pattern is an identifier
(`Pat::Ident`, carrying the name) or some other pattern (`none`). -/
inductive FnArg : Type where
  | receiver (ty : TypeExpr)
  | typed (name : Option String) (ty : TypeExpr)


/-- Model of `syn::ReturnType`: `Default` (no declared return type) or
`Type` (an arrow followed by a type). -/
inductive RetType : Type where
  | default
  | someTy (ty : TypeExpr)


/-- Model of `syn::ItemFn`, restricted to the fields the macros read:
`sig.ident`, `sig.inputs`, `sig.output` and `block` (the body, kept as an
opaque re-emittable fragment). -/
structure ItemFn : Type where
  name : String
  inputs : List FnArg
  output : RetType
  body : String


/-- One error constructor per `panic!`/`expect` site in src/lib.rs,
plus the `meta.error("unsupported attribute")` abort in `derive_actor`. -/
inductive GenError : Type where
  | missingReceiver
  | missingMessageParameter
  | expectedPathType
  | expectedResultSegment
  | returnTypeMustBeResult
  | expectedAngleBracketedArgs
  | missingSuccessType
  | missingErrorType
  | missingReturnType
  | missingErrorAttribute
  | unsupportedAttribute


/-- The spec (§4.3, §7) names `InvalidReturnType` for every return-type shape
failure: not a named-generic path, wrong name, no angle-bracketed arguments,
or missing success/error argument.  `MissingReturnType` is kept separate. -/
def GenError.isInvalidReturnType : GenError → Bool
  | .expectedPathType => true
  | .expectedResultSegment => true
  | .returnTypeMustBeResult => true
  | .expectedAngleBracketedArgs => true
  | .missingSuccessType => true
  | .missingErrorType => true
  | _ => false

/-- The spec (§4.5, §7) names `MissingErrorAttribute` both when no "error"
binding is present and when parsing the nested attribute structure fails
(e.g. an unsupported key). -/
def GenError.isMissingErrorAttribute : GenError → Bool
  | .missingErrorAttribute => true
  | .unsupportedAttribute => true
  | _ => false

/-- `strip_reference` from src/lib.rs lines 109-114: recursively unwrap
`Type::Reference` until a non-reference type remains. -/
def strip_reference : TypeExpr → TypeExpr
  | .typeRef _ elem => strip_reference elem
  | ty => ty

/-- The parameter scan shared by `ask_handler` and `tell_handler`
(src/lib.rs lines 21-33 and 72-84): walk the inputs in order with two
mutable `Option` slots; a receiver stores its type in the first slot, a
typed parameter whose identifier is exactly "msg" stores its type in the
second, everything else is ignored. -/
def scan_args : List FnArg → Option TypeExpr → Option TypeExpr →
    Option TypeExpr × Option TypeExpr
  | [], actor, msg => (actor, msg)
  | .receiver ty :: rest, _, msg => scan_args rest (some ty) msg
  | .typed (some n) ty :: rest, actor, msg =>
      if n = "msg" then scan_args rest actor (some ty)
      else scan_args rest actor msg
  | .typed none _ :: rest, actor, msg => scan_args rest actor msg

/-- `extract_result_types` from src/lib.rs lines 116-153: the return type
must be present, be a path type, its FIRST segment must be named "Result"
and carry angle-bracketed arguments, and the first two arguments are taken
positionally as (success, error); remaining arguments are not examined. -/
def extract_result_types : RetType → Except GenError (TypeExpr × TypeExpr)
  | .default => .error .missingReturnType
  | .someTy ty =>
    match ty with
    | .typePath segments =>
      match segments.head? with
      | none => .error .expectedResultSegment
      | some (ident, argsOpt) =>
        if ident = "Result" then
          match argsOpt with
          | none => .error .expectedAngleBracketedArgs
          | some args =>
            match args with
            | [] => .error .missingSuccessType
            | [_] => .error .missingErrorType
            | resp :: err :: _ => .ok (resp, err)
        else .error .returnTypeMustBeResult
    | _ => .error .expectedPathType

/-- The generated `impl AskHandlerTrait<traitMsg, traitResp, traitErr> for
traitSelf` of src/lib.rs lines 43-53: trait header types are the stripped
ones, the method keeps the original (unstripped) self and msg types, returns
`Result<methodRespTy, methodErrTy>`, and splices the original body. -/
structure AskImpl : Type where
  traitMsg : TypeExpr
  traitResp : TypeExpr
  traitErr : TypeExpr
  traitSelf : TypeExpr
  methodName : String
  methodSelfTy : TypeExpr
  methodMsgTy : TypeExpr
  methodRespTy : TypeExpr
  methodErrTy : TypeExpr
  body : String


/-- The generated `impl TellHandlerTrait<traitMsg, traitErr> for traitSelf`
of src/lib.rs lines 94-104: as `AskImpl` but the success type appears
nowhere, and the method returns `Result<(), methodErrTy>`. -/
structure TellImpl : Type where
  traitMsg : TypeExpr
  traitErr : TypeExpr
  traitSelf : TypeExpr
  methodName : String
  methodSelfTy : TypeExpr
  methodMsgTy : TypeExpr
  methodErrTy : TypeExpr
  body : String


/-- The angle-bracketed parameter list of the emitted tell trait header,
`TellHandlerTrait<traitMsg, traitErr>`, in order. -/
def TellImpl.traitParams (i : TellImpl) : List TypeExpr :=
  [i.traitMsg, i.traitErr]

/-- The angle-bracketed parameter list of the emitted ask trait header,
`AskHandlerTrait<traitMsg, traitResp, traitErr>`, in order. -/
def AskImpl.traitParams (i : AskImpl) : List TypeExpr :=
  [i.traitMsg, i.traitResp, i.traitErr]

/-- `ask_handler` from src/lib.rs lines 8-56.  The `expect` on the receiver
slot (line 35) runs before the `expect` on the msg slot (line 36), and both
run before `extract_result_types` (line 41). -/
def ask_handler (input : ItemFn) : Except GenError AskImpl :=
  match scan_args input.inputs none none with
  | (none, _) => .error .missingReceiver
  | (some _, none) => .error .missingMessageParameter
  | (some actor_ty, some msg_ty) =>
    match extract_result_types input.output with
    | .error e => .error e
    | .ok (resp_ty, err_ty) =>
      .ok { traitMsg := strip_reference msg_ty
            traitResp := resp_ty
            traitErr := err_ty
            traitSelf := strip_reference actor_ty
            methodName := input.name
            methodSelfTy := actor_ty
            methodMsgTy := msg_ty
            methodRespTy := resp_ty
            methodErrTy := err_ty
            body := input.body }

/-- `tell_handler` from src/lib.rs lines 59-107: identical scan and checks,
but the success type of the decomposed result is discarded (line 92 binds it
to `_`) and the emitted trait is `TellHandlerTrait<msg, err>`. -/
def tell_handler (input : ItemFn) : Except GenError TellImpl :=
  match scan_args input.inputs none none with
  | (none, _) => .error .missingReceiver
  | (some _, none) => .error .missingMessageParameter
  | (some actor_ty, some msg_ty) =>
    match extract_result_types input.output with
    | .error e => .error e
    | .ok (_, err_ty) =>
      .ok { traitMsg := strip_reference msg_ty
            traitErr := err_ty
            traitSelf := strip_reference actor_ty
            methodName := input.name
            methodSelfTy := actor_ty
            methodMsgTy := msg_ty
            methodErrTy := err_ty
            body := input.body }

/-- Model of a `syn::Attribute` as the derive macro reads it: its path
(a single identifier, compared against "actor") and, for `parse_nested_meta`,
the list of nested `key = value` metas in source order. -/
structure AttrNode : Type where
  path : String
  bindings : List (String × TypeExpr)


/-- Model of `syn::DeriveInput`, restricted to the fields read:
`ident` and `attrs`. -/
structure DeriveInput : Type where
  ident : String
  attrs : List AttrNode


/-- The generated member-less `impl ActorTrait<traitErr> for target \x7b\x7d`
of src/lib.rs lines 176-178. -/
structure ActorImpl : Type where
  target : String
  traitErr : TypeExpr


/-- The `parse_nested_meta` closure of src/lib.rs lines 162-170, run over the
nested metas of one attribute in order: a binding keyed "error" overwrites
the accumulator, any other key aborts with the "unsupported attribute"
error (the closure returns `Err`, and the `unwrap` on line 171 panics). -/
def processAttr (acc : Option TypeExpr) :
    List (String × TypeExpr) → Except GenError (Option TypeExpr)
  | [] => .ok acc
  | (k, v) :: rest =>
    if k = "error" then processAttr (some v) rest
    else .error .unsupportedAttribute

/-- The attribute loop of src/lib.rs lines 161-172: the already-filtered
"actor" attributes are processed in order, threading the `error_ty` slot. -/
def find_error_ty (acc : Option TypeExpr) :
    List AttrNode → Except GenError (Option TypeExpr)
  | [] => .ok acc
  | a :: rest =>
    match processAttr acc a.bindings with
    | .error e => .error e
    | .ok acc2 => find_error_ty acc2 rest

/-- The filter of src/lib.rs line 161: attributes whose path is "actor". -/
def actorAttrs (input : DeriveInput) : List AttrNode :=
  input.attrs.filter (fun a => a.path = "actor")

/-- All nested `key = value` metas of the "actor" attributes, flattened in
declaration order — the order in which the loop of lines 161-172 visits
them. -/
def actorBindings (input : DeriveInput) : List (String × TypeExpr) :=
  ((actorAttrs input).map AttrNode.bindings).flatten

/-- `derive_actor` from src/lib.rs lines 155-181: filter the attributes whose
path is "actor", fold the nested metas into the `error_ty` slot, fail with
the missing-attribute panic (line 174) when the slot is still empty, else
emit the marker implementation. -/
def derive_actor (input : DeriveInput) : Except GenError ActorImpl :=
  match find_error_ty none (actorAttrs input) with
  | .error e => .error e
  | .ok none => .error .missingErrorAttribute
  | .ok (some error_ty) => .ok { target := input.ident, traitErr := error_ty }

/-- Shorthand for the source-level return type `Result<r, e>`:
a one-segment path named "Result" with two angle-bracketed arguments. -/
def resultTy (r e : TypeExpr) : TypeExpr :=
  .typePath [("Result", some [r, e])]

/-- True iff the parameter list contains a receiver (`self`-like) form. -/
def hasReceiver : List FnArg → Bool
  | [] => false
  | .receiver _ :: _ => true
  | _ :: rest => hasReceiver rest

/-- True iff the parameter list contains a typed parameter whose identifier
pattern is exactly "msg". -/
def hasMsgParam : List FnArg → Bool
  | [] => false
  | .typed (some n) _ :: rest => n = "msg" || hasMsgParam rest
  | _ :: rest => hasMsgParam rest

/-- True iff the type is a path whose first segment is named "Result" and
carries at least two angle-bracketed arguments — exactly the shapes
`extract_result_types` accepts. -/
def isResultShaped : TypeExpr → Bool
  | .typePath (("Result", some (_ :: _ :: _)) :: _) => true
  | _ => false

/-- True iff the outermost constructor of the type is the reference
wrapper `Type::Reference`. -/
def isRefWrapper : TypeExpr → Bool
  | .typeRef _ _ => true
  | _ => false

/-! ### Concrete type atoms for witnesses and counterexamples -/

def tyWorker : TypeExpr := .typePath [("Worker", none)]

def tyPing : TypeExpr := .typePath [("Ping", none)]

def tyPong : TypeExpr := .typePath [("Pong", none)]

def tyWErr : TypeExpr := .typePath [("WorkerError", none)]

def tyCounter : TypeExpr := .typePath [("Counter", none)]

def tyInc : TypeExpr := .typePath [("Inc", none)]

def tyMyError : TypeExpr := .typePath [("MyError", none)]

def tyOtherError : TypeExpr := .typePath [("OtherError", none)]

/-! ### Helper lemmas about `strip_reference` -/

theorem strip_reference_ne_typeRef :
    ∀ (t : TypeExpr) (m : Bool) (u : TypeExpr),
      strip_reference t ≠ .typeRef m u
  | .typeRef m2 e, m, u => by
      rw [strip_reference]
      exact strip_reference_ne_typeRef e m u
  | .typePath s, m, u => by simp [strip_reference]
  | .typeOther n, m, u => by simp [strip_reference]

theorem strip_reference_of_ne_typeRef :
    ∀ (t : TypeExpr), (∀ m u, t ≠ .typeRef m u) → strip_reference t = t
  | .typeRef m e, h => absurd rfl (h m e)
  | .typePath _, _ => rfl
  | .typeOther _, _ => rfl

theorem strip_reference_idem (t : TypeExpr) :
    strip_reference (strip_reference t) = strip_reference t :=
  strip_reference_of_ne_typeRef _ (strip_reference_ne_typeRef t)

/-! ### Helper lemmas about the parameter scan -/

theorem scan_args_fst_none :
    ∀ (l : List FnArg) (a m : Option TypeExpr),
      (scan_args l a m).1 = none ↔ a = none ∧ hasReceiver l = false
  | [], a, m => by simp [scan_args, hasReceiver]
  | .receiver ty :: rest, a, m => by
      simp [scan_args, hasReceiver, scan_args_fst_none rest (some ty) m]
  | .typed (some n) ty :: rest, a, m => by
      by_cases h : n = "msg" <;>
        simp [scan_args, hasReceiver, h, scan_args_fst_none rest a]
  | .typed none ty :: rest, a, m => by
      simp [scan_args, hasReceiver, scan_args_fst_none rest a m]

theorem scan_args_snd_none :
    ∀ (l : List FnArg) (a m : Option TypeExpr),
      (scan_args l a m).2 = none ↔ m = none ∧ hasMsgParam l = false
  | [], a, m => by simp [scan_args, hasMsgParam]
  | .receiver ty :: rest, a, m => by
      simp [scan_args, hasMsgParam, scan_args_snd_none rest (some ty) m]
  | .typed (some n) ty :: rest, a, m => by
      by_cases h : n = "msg" <;>
        simp [scan_args, hasMsgParam, h, scan_args_snd_none rest a]
  | .typed none ty :: rest, a, m => by
      simp [scan_args, hasMsgParam, scan_args_snd_none rest a m]

theorem ask_handler_no_receiver (fn : ItemFn)
    (h : hasReceiver fn.inputs = false) :
    ask_handler fn = .error .missingReceiver := by
  have h1 : (scan_args fn.inputs none none).1 = none :=
    (scan_args_fst_none _ _ _).2 ⟨rfl, h⟩
  unfold ask_handler
  rcases hscan : scan_args fn.inputs none none with ⟨o1, o2⟩
  rw [hscan] at h1
  simp only at h1
  subst h1
  rfl

theorem tell_handler_no_receiver (fn : ItemFn)
    (h : hasReceiver fn.inputs = false) :
    tell_handler fn = .error .missingReceiver := by
  have h1 : (scan_args fn.inputs none none).1 = none :=
    (scan_args_fst_none _ _ _).2 ⟨rfl, h⟩
  unfold tell_handler
  rcases hscan : scan_args fn.inputs none none with ⟨o1, o2⟩
  rw [hscan] at h1
  simp only at h1
  subst h1
  rfl

theorem ask_handler_no_msg (fn : ItemFn)
    (hr : hasReceiver fn.inputs = true) (hm : hasMsgParam fn.inputs = false) :
    ask_handler fn = .error .missingMessageParameter := by
  have h2 : (scan_args fn.inputs none none).2 = none :=
    (scan_args_snd_none _ _ _).2 ⟨rfl, hm⟩
  unfold ask_handler
  rcases hscan : scan_args fn.inputs none none with ⟨o1, o2⟩
  rw [hscan] at h2
  simp only at h2
  subst h2
  cases o1 with
  | none =>
      exfalso
      have := (scan_args_fst_none fn.inputs none none).1 (by rw [hscan])
      rw [hr] at this
      exact absurd this.2 (by decide)
  | some t => rfl

theorem tell_handler_no_msg (fn : ItemFn)
    (hr : hasReceiver fn.inputs = true) (hm : hasMsgParam fn.inputs = false) :
    tell_handler fn = .error .missingMessageParameter := by
  have h2 : (scan_args fn.inputs none none).2 = none :=
    (scan_args_snd_none _ _ _).2 ⟨rfl, hm⟩
  unfold tell_handler
  rcases hscan : scan_args fn.inputs none none with ⟨o1, o2⟩
  rw [hscan] at h2
  simp only at h2
  subst h2
  cases o1 with
  | none =>
      exfalso
      have := (scan_args_fst_none fn.inputs none none).1 (by rw [hscan])
      rw [hr] at this
      exact absurd this.2 (by decide)
  | some t => rfl

/-! ### Helper lemmas about `extract_result_types` -/

theorem extract_result_types_ok (r e : TypeExpr) (args : List TypeExpr)
    (segs : List (String × Option (List TypeExpr))) :
    extract_result_types
      (.someTy (.typePath (("Result", some (r :: e :: args)) :: segs)))
      = .ok (r, e) := by
  simp [extract_result_types]

theorem extract_result_types_not_result_shaped :
    ∀ (ty : TypeExpr), isResultShaped ty = false →
      ∃ err, extract_result_types (.someTy ty) = .error err ∧
        err.isInvalidReturnType = true
  | .typeRef m e, _ =>
      ⟨.expectedPathType, rfl, rfl⟩
  | .typeOther n, _ =>
      ⟨.expectedPathType, rfl, rfl⟩
  | .typePath [], _ =>
      ⟨.expectedResultSegment, rfl, rfl⟩
  | .typePath ((ident, argsOpt) :: rest), h => by
      by_cases hid : ident = "Result"
      · subst hid
        match argsOpt with
        | none =>
            exact ⟨.expectedAngleBracketedArgs, by simp [extract_result_types], rfl⟩
        | some [] =>
            exact ⟨.missingSuccessType, by simp [extract_result_types], rfl⟩
        | some [x] =>
            exact ⟨.missingErrorType, by simp [extract_result_types], rfl⟩
        | some (x :: y :: more) =>
            exact absurd h (by simp [isResultShaped])
      · exact ⟨.returnTypeMustBeResult, by simp [extract_result_types, hid], rfl⟩

/-! ### Helper lemmas about the attribute fold of `derive_actor` -/

theorem processAttr_all_error :
    ∀ (bs : List (String × TypeExpr)) (acc : Option TypeExpr),
      (∀ b ∈ bs, b.1 = "error") →
      processAttr acc bs = .ok (bs.foldl (fun _ b => some b.2) acc)
  | [], acc, _ => rfl
  | (k, v) :: rest, acc, h => by
      have hk : k = "error" := h (k, v) (List.mem_cons_self _ _)
      simp only [processAttr, hk, if_pos rfl, List.foldl_cons]
      exact processAttr_all_error rest (some v)
        (fun b hb => h b (List.mem_cons_of_mem _ hb))

theorem processAttr_has_bad :
    ∀ (bs : List (String × TypeExpr)) (acc : Option TypeExpr),
      (∃ b ∈ bs, b.1 ≠ "error") →
      processAttr acc bs = .error .unsupportedAttribute
  | [], acc, h => by simp at h
  | (k, v) :: rest, acc, h => by
      by_cases hk : k = "error"
      · obtain ⟨b, hb, hbad⟩ := h
        rcases List.mem_cons.1 hb with hfirst | hrest
        · subst hfirst
          exact absurd hk hbad
        · simp only [processAttr, hk, if_pos rfl]
          exact processAttr_has_bad rest (some v) ⟨b, hrest, hbad⟩
      · simp [processAttr, hk]

theorem processAttr_error_eq :
    ∀ (bs : List (String × TypeExpr)) (acc : Option TypeExpr) (e : GenError),
      processAttr acc bs = .error e → e = .unsupportedAttribute
  | [], acc, e, h => by simp [processAttr] at h
  | (k, v) :: rest, acc, e, h => by
      by_cases hk : k = "error"
      · rw [processAttr, if_pos hk] at h
        exact processAttr_error_eq rest (some v) e h
      · rw [processAttr, if_neg hk] at h
        injection h with h2
        exact h2.symm

theorem find_error_ty_all_error :
    ∀ (l : List AttrNode) (acc : Option TypeExpr),
      (∀ a ∈ l, ∀ b ∈ a.bindings, b.1 = "error") →
      find_error_ty acc l
        = .ok ((l.map AttrNode.bindings).flatten.foldl (fun _ b => some b.2) acc)
  | [], acc, _ => by simp [find_error_ty]
  | a :: rest, acc, h => by
      have h1 := processAttr_all_error a.bindings acc
        (fun b hb => h a (List.mem_cons_self _ _) b hb)
      have h2 := find_error_ty_all_error rest
        (a.bindings.foldl (fun _ b => some b.2) acc)
        (fun a2 ha2 b hb => h a2 (List.mem_cons_of_mem _ ha2) b hb)
      have h3 : ((a :: rest).map AttrNode.bindings).flatten.foldl
            (fun _ b => some b.2) acc
          = (rest.map AttrNode.bindings).flatten.foldl (fun _ b => some b.2)
              (a.bindings.foldl (fun _ b => some b.2) acc) := by
        simp [List.foldl_append]
      rw [find_error_ty, h1, h3]
      exact h2

theorem find_error_ty_has_bad :
    ∀ (l : List AttrNode) (acc : Option TypeExpr),
      (∃ a ∈ l, ∃ b ∈ a.bindings, b.1 ≠ "error") →
      find_error_ty acc l = .error .unsupportedAttribute
  | [], acc, h => by simp at h
  | a :: rest, acc, h => by
      obtain ⟨a2, ha2, b, hb, hbad⟩ := h
      rcases List.mem_cons.1 ha2 with hfirst | hrest
      · rw [find_error_ty,
          processAttr_has_bad a.bindings acc ⟨b, hfirst ▸ hb, hbad⟩]
      · rw [find_error_ty]
        cases hp : processAttr acc a.bindings with
        | error e => rw [processAttr_error_eq a.bindings acc e hp]
        | ok acc2 => exact find_error_ty_has_bad rest acc2 ⟨a2, hrest, b, hb, hbad⟩

theorem find_error_ty_no_error_none :
    ∀ (l : List AttrNode),
      (∀ a ∈ l, ∀ b ∈ a.bindings, b.1 ≠ "error") →
      find_error_ty none l = .ok none ∨
      find_error_ty none l = .error .unsupportedAttribute
  | [], _ => Or.inl rfl
  | a :: rest, h => by
      cases hb : a.bindings with
      | nil =>
          have hp : processAttr none a.bindings = .ok none := by rw [hb]; rfl
          rw [find_error_ty, hp]
          exact find_error_ty_no_error_none rest
            (fun a2 ha2 b hbnd => h a2 (List.mem_cons_of_mem _ ha2) b hbnd)
      | cons x xs =>
          right
          have hx : x ∈ a.bindings := by
            rw [hb]; exact List.mem_cons_self _ _
          have hbadx : x.1 ≠ "error" := h a (List.mem_cons_self _ _) x hx
          rw [find_error_ty, processAttr_has_bad a.bindings none ⟨x, hx, hbadx⟩]

/-! ### Helper lemmas lifting `extract_result_types` through the handlers -/

theorem ask_handler_ok_of_extract (fn : ItemFn) (a m r e : TypeExpr)
    (hscan : scan_args fn.inputs none none = (some a, some m))
    (hex : extract_result_types fn.output = .ok (r, e)) :
    ask_handler fn
      = .ok ⟨strip_reference m, r, e, strip_reference a, fn.name, a, m, r, e,
             fn.body⟩ := by
  unfold ask_handler
  rw [hscan]
  simp only [hex]

theorem ask_handler_error_of_extract (fn : ItemFn) (a m : TypeExpr)
    (err : GenError)
    (hscan : scan_args fn.inputs none none = (some a, some m))
    (hex : extract_result_types fn.output = .error err) :
    ask_handler fn = .error err := by
  unfold ask_handler
  rw [hscan]
  simp only [hex]

theorem tell_handler_ok_of_extract (fn : ItemFn) (a m r e : TypeExpr)
    (hscan : scan_args fn.inputs none none = (some a, some m))
    (hex : extract_result_types fn.output = .ok (r, e)) :
    tell_handler fn
      = .ok ⟨strip_reference m, e, strip_reference a, fn.name, a, m, e,
             fn.body⟩ := by
  unfold tell_handler
  rw [hscan]
  simp only [hex]

theorem tell_handler_error_of_extract (fn : ItemFn) (a m : TypeExpr)
    (err : GenError)
    (hscan : scan_args fn.inputs none none = (some a, some m))
    (hex : extract_result_types fn.output = .error err) :
    tell_handler fn = .error err := by
  unfold tell_handler
  rw [hscan]
  simp only [hex]

theorem foldl_some_snd_last :
    ∀ (l : List (String × TypeExpr)) (acc : Option TypeExpr)
      (b : String × TypeExpr),
      l.getLast? = some b → l.foldl (fun _ x => some x.2) acc = some b.2
  | [], acc, b, h => by simp at h
  | x :: xs, acc, b, h => by
      cases xs with
      | nil =>
          have hx : ([x].getLast? : Option (String × TypeExpr)) = some x := rfl
          rw [hx, Option.some.injEq] at h
          subst h
          rfl
      | cons y ys =>
          rw [List.getLast?_cons_cons] at h
          exact foldl_some_snd_last (y :: ys) (some x.2) b h

end Ascolt

namespace Ascolt

/-- C1 counterexample: `tell_handler` on
`fn handle(&Worker, state: Counter, msg: Inc) -> Result<Pong, WorkerError>`
succeeds, but the emitted trait parameterization is `(Inc, WorkerError)` —
two parameters, `(M, E)` — not the claimed `(S, M, E)`: the state type
`Counter` appears nowhere in it. -/
theorem C1_counterexample :
    (tell_handler ⟨"handle",
        [.receiver (.typeRef false tyWorker),
         .typed (some "state") tyCounter,
         .typed (some "msg") tyInc],
        .someTy (resultTy tyPong tyWErr), "incr_body"⟩).map TellImpl.traitParams
      = .ok [tyInc, tyWErr] ∧
    ([tyInc, tyWErr] : List TypeExpr) ≠ [tyCounter, tyInc, tyWErr] :=
  ⟨rfl, by simp⟩

/-- C1 (amended): for every function with signature
`(receiver, state: S, msg: M) -> Result<R, E>` marked as a tell handler,
generation succeeds, the state parameter is silently ignored, and the
emitted tell contract is parameterized by `(M, E)` only — neither the state
type `S` nor the success type `R` appears in the trait parameterization. -/
theorem C1_amended (a s m r e : TypeExpr) (n b : String) :
    tell_handler ⟨n,
        [.receiver a, .typed (some "state") s, .typed (some "msg") m],
        .someTy (resultTy r e), b⟩
      = .ok ⟨strip_reference m, e, strip_reference a, n, a, m, e, b⟩ := by
  refine tell_handler_ok_of_extract _ a m r e ?_
    (extract_result_types_ok r e [] [])
  show scan_args [.receiver a, .typed (some "state") s, .typed (some "msg") m]
      none none = (some a, some m)
  simp [scan_args]

/-- C2 counterexample: a marked handler whose return type is the named
generic `Result<Pong, WorkerError, Ping>` — three angle-bracketed
arguments, hence not "exactly two" — does not fail: generation succeeds,
taking the first two arguments positionally. -/
theorem C2_counterexample :
    ask_handler ⟨"handle",
        [.receiver (.typeRef false tyWorker), .typed (some "msg") tyPing],
        .someTy (.typePath [("Result", some [tyPong, tyWErr, tyPing])]),
        "three_arg_body"⟩
      = .ok ⟨tyPing, tyPong, tyWErr, tyWorker, "handle",
             .typeRef false tyWorker, tyPing, tyPong, tyWErr,
             "three_arg_body"⟩ :=
  rfl

/-- C2 (amended): for every marked handler function (ask or tell) whose
declared return type is not a path whose FIRST segment is named "Result"
with at least two angle-bracketed arguments — e.g. a bare type, a
one-argument generic, or a name other than the expected result shape —
generation fails with an `InvalidReturnType` error; with two or more
arguments the first is taken positionally as the success type and the
second as the error type, any further arguments being ignored. -/
theorem C2_amended (fnTy a m : TypeExpr) (n b : String) :
    (isResultShaped fnTy = false →
      ∃ err, err.isInvalidReturnType = true ∧
        ask_handler ⟨n, [.receiver a, .typed (some "msg") m],
            .someTy fnTy, b⟩ = .error err ∧
        tell_handler ⟨n, [.receiver a, .typed (some "msg") m],
            .someTy fnTy, b⟩ = .error err) ∧
    (∀ r e rest segs,
      fnTy = .typePath (("Result", some (r :: e :: rest)) :: segs) →
      extract_result_types (.someTy fnTy) = .ok (r, e)) := by
  have hscan : scan_args [FnArg.receiver a, FnArg.typed (some "msg") m]
      none none = (some a, some m) := by simp [scan_args]
  constructor
  · intro h
    obtain ⟨err, hex, hinv⟩ := extract_result_types_not_result_shaped fnTy h
    exact ⟨err, hinv,
      ask_handler_error_of_extract _ a m err hscan hex,
      tell_handler_error_of_extract _ a m err hscan hex⟩
  · intro r e rest segs hshape
    subst hshape
    exact extract_result_types_ok r e rest segs

/-- C2 witness: instantiating the amended theorem at the bare return type
`Ping` yields an invalid-return-type failure for both markers. -/
theorem C2_amended_witness :
    ∃ err, GenError.isInvalidReturnType err = true ∧
      ask_handler ⟨"handle",
          [.receiver (.typeRef false tyWorker), .typed (some "msg") tyPing],
          .someTy (.typeOther 7), "bare_body"⟩ = .error err ∧
      tell_handler ⟨"handle",
          [.receiver (.typeRef false tyWorker), .typed (some "msg") tyPing],
          .someTy (.typeOther 7), "bare_body"⟩ = .error err :=
  (C2_amended (.typeOther 7) (.typeRef false tyWorker) tyPing
    "handle" "bare_body").1 rfl

/-- C3: for every function with signature `(receiver, msg: M) -> Result<R, E>`
(with `M` carrying no reference wrapper) marked as an ask handler,
generation succeeds and emits an implementation of the ask handler trait for
the normalized (reference-stripped) receiver type, parameterized exactly by
`(M, R, E)`, whose single method returns `Result<R, E>` and whose body is
textually identical to the original function body. -/
theorem C3_holds (a m r e : TypeExpr) (n b : String)
    (hm : strip_reference m = m) :
    ask_handler ⟨n, [.receiver a, .typed (some "msg") m],
        .someTy (resultTy r e), b⟩
      = .ok ⟨m, r, e, strip_reference a, n, a, m, r, e, b⟩ := by
  rw [ask_handler_ok_of_extract _ a m r e (by simp [scan_args])
    (extract_result_types_ok r e [] []), hm]

/-- C3 witness: the spec's end-to-end scenario
`fn handle(&Worker, msg: Ping) -> Result<Pong, WorkerError>` marked
ask_handler emits `AskHandlerTrait<Ping, Pong, WorkerError> for Worker`
with the original body. -/
theorem C3_witness :
    ask_handler ⟨"handle",
        [.receiver (.typeRef false tyWorker), .typed (some "msg") tyPing],
        .someTy (resultTy tyPong tyWErr), "ok_pong"⟩
      = .ok ⟨tyPing, tyPong, tyWErr, tyWorker, "handle",
             .typeRef false tyWorker, tyPing, tyPong, tyWErr, "ok_pong"⟩ :=
  C3_holds (.typeRef false tyWorker) tyPing tyPong tyWErr "handle"
    "ok_pong" rfl

/-- C4 counterexample: a marked handler with no parameter named "msg" AND no
receiver fails with `MissingReceiver`, not `MissingMessageParameter` — the
receiver check of src/lib.rs line 35 runs before the msg check of line 36,
so the claim's unconditional "no msg implies MissingMessageParameter" is
false. -/
theorem C4_counterexample :
    ask_handler ⟨"handle", [.typed (some "state") tyCounter],
        .someTy (resultTy tyPong tyWErr), "body4"⟩
      = .error .missingReceiver ∧
    GenError.missingReceiver ≠ GenError.missingMessageParameter :=
  ⟨rfl, by simp⟩

/-- C4 (amended): for every marked handler function (ask or tell): if no
receiver is present, generation fails with `MissingReceiver` (this check
runs first, even when "msg" is also absent); if a receiver is present but
no parameter is named exactly "msg", generation fails with
`MissingMessageParameter`. -/
theorem C4_amended (fn : ItemFn) :
    (hasReceiver fn.inputs = false →
      ask_handler fn = .error .missingReceiver ∧
      tell_handler fn = .error .missingReceiver) ∧
    (hasReceiver fn.inputs = true → hasMsgParam fn.inputs = false →
      ask_handler fn = .error .missingMessageParameter ∧
      tell_handler fn = .error .missingMessageParameter) :=
  ⟨fun h => ⟨ask_handler_no_receiver fn h, tell_handler_no_receiver fn h⟩,
   fun hr hm => ⟨ask_handler_no_msg fn hr hm, tell_handler_no_msg fn hr hm⟩⟩

/-- C4 witness: a handler with a receiver and a "state" parameter but no
"msg" parameter fails with `MissingMessageParameter` under both markers. -/
theorem C4_amended_witness :
    ask_handler ⟨"handle",
        [.receiver (.typeRef false tyWorker), .typed (some "state") tyCounter],
        .someTy (resultTy tyPong tyWErr), "body4w"⟩
      = .error .missingMessageParameter ∧
    tell_handler ⟨"handle",
        [.receiver (.typeRef false tyWorker), .typed (some "state") tyCounter],
        .someTy (resultTy tyPong tyWErr), "body4w"⟩
      = .error .missingMessageParameter :=
  (C4_amended ⟨"handle",
      [.receiver (.typeRef false tyWorker), .typed (some "state") tyCounter],
      .someTy (resultTy tyPong tyWErr), "body4w"⟩).2 rfl rfl

/-- C5: the return-type decomposer only inspects the FIRST path segment:
any return type written as a qualified path whose first segment is a plain
identifier other than "Result" — in particular `std::result::Result<T, E>`,
whose last segment is Result with two arguments — fails with the
"Return type must be Result" panic, which the spec's taxonomy classifies as
the invalid-return-type error. -/
theorem C5_holds (s1 : String)
    (rest : List (String × Option (List TypeExpr))) (r e : TypeExpr)
    (_hlast : rest.getLast? = some ("Result", some [r, e]))
    (hs : s1 ≠ "Result") :
    extract_result_types (.someTy (.typePath ((s1, none) :: rest)))
      = .error .returnTypeMustBeResult ∧
    GenError.returnTypeMustBeResult.isInvalidReturnType = true :=
  ⟨by simp [extract_result_types, hs], rfl⟩

/-- C5 witness: `std::result::Result<Pong, WorkerError>` as a return type is
rejected with the invalid-return-type error. -/
theorem C5_witness :
    extract_result_types (.someTy (.typePath
        [("std", none), ("result", none),
         ("Result", some [tyPong, tyWErr])]))
      = .error .returnTypeMustBeResult ∧
    GenError.returnTypeMustBeResult.isInvalidReturnType = true :=
  C5_holds "std" [("result", none), ("Result", some [tyPong, tyWErr])]
    tyPong tyWErr rfl (by decide)

/-- C6: the Reference Normalizer `strip_reference` is idempotent and total:
normalizing twice equals normalizing once; a type that is not a reference
wrapper is returned unchanged; peeling one reference wrapper does not change
the result; and the result is never itself a reference wrapper (so for
nested wrappers it is the innermost non-reference type). -/
theorem C6_holds (t : TypeExpr) (m : Bool) :
    strip_reference (strip_reference t) = strip_reference t ∧
    (isRefWrapper t = false → strip_reference t = t) ∧
    strip_reference (.typeRef m t) = strip_reference t ∧
    isRefWrapper (strip_reference t) = false := by
  refine ⟨strip_reference_idem t, ?_, rfl, ?_⟩
  · intro h
    apply strip_reference_of_ne_typeRef
    intro m2 u hcontra
    rw [hcontra] at h
    exact absurd h (by simp [isRefWrapper])
  · cases hst : strip_reference t with
    | typeRef m2 u => exact absurd hst (strip_reference_ne_typeRef t m2 u)
    | typePath s => rfl
    | typeOther k => rfl

/-- C6 witness: a doubly-wrapped `&mut &Ping` normalizes to `Ping`, again
when normalized twice, and the unwrapped `Ping` is returned unchanged. -/
theorem C6_witness :
    strip_reference (strip_reference (.typeRef true (.typeRef false tyPing)))
      = strip_reference (.typeRef true (.typeRef false tyPing)) ∧
    strip_reference tyPing = tyPing :=
  ⟨(C6_holds (.typeRef true (.typeRef false tyPing)) false).1,
   (C6_holds tyPing false).2.1 rfl⟩

/-- C7: for every successful generation (ask or tell), the emitted method
signature keeps the receiver and msg parameter types exactly as the user
wrote them (reference wrappers included): the method self type and msg type
are the very types found by the parameter scan, only the trait header uses
their reference-stripped forms, the method name is the original function
name, and the body is the original body unchanged. -/
theorem C7_holds (fn : ItemFn) :
    (∀ out : AskImpl, ask_handler fn = .ok out →
      scan_args fn.inputs none none
        = (some out.methodSelfTy, some out.methodMsgTy) ∧
      out.traitSelf = strip_reference out.methodSelfTy ∧
      out.traitMsg = strip_reference out.methodMsgTy ∧
      out.body = fn.body ∧ out.methodName = fn.name) ∧
    (∀ out : TellImpl, tell_handler fn = .ok out →
      scan_args fn.inputs none none
        = (some out.methodSelfTy, some out.methodMsgTy) ∧
      out.traitSelf = strip_reference out.methodSelfTy ∧
      out.traitMsg = strip_reference out.methodMsgTy ∧
      out.body = fn.body ∧ out.methodName = fn.name) := by
  constructor
  · intro out h
    unfold ask_handler at h
    rcases hscan : scan_args fn.inputs none none with ⟨o1, o2⟩
    rw [hscan] at h
    cases o1 with
    | none => simp at h
    | some a =>
      cases o2 with
      | none => simp at h
      | some m =>
        cases hex : extract_result_types fn.output with
        | error e => simp [hex] at h
        | ok p =>
          rcases p with ⟨r, e⟩
          simp only [hex] at h
          injection h with h2
          subst h2
          exact ⟨rfl, rfl, rfl, rfl, rfl⟩
  · intro out h
    unfold tell_handler at h
    rcases hscan : scan_args fn.inputs none none with ⟨o1, o2⟩
    rw [hscan] at h
    cases o1 with
    | none => simp at h
    | some a =>
      cases o2 with
      | none => simp at h
      | some m =>
        cases hex : extract_result_types fn.output with
        | error e => simp [hex] at h
        | ok p =>
          rcases p with ⟨r, e⟩
          simp only [hex] at h
          injection h with h2
          subst h2
          exact ⟨rfl, rfl, rfl, rfl, rfl⟩

/-- C7 witness: for `fn handle(&Worker, msg: &Ping) -> Result<Pong,
WorkerError>` marked ask_handler the emitted method keeps `&Worker` and
`&Ping`, the trait header uses `Worker` and `Ping`, and name and body are
preserved. -/
theorem C7_witness :
    scan_args [FnArg.receiver (.typeRef false tyWorker),
               FnArg.typed (some "msg") (.typeRef false tyPing)] none none
      = (some (.typeRef false tyWorker), some (.typeRef false tyPing)) ∧
    (tyWorker : TypeExpr) = strip_reference (.typeRef false tyWorker) ∧
    (tyPing : TypeExpr) = strip_reference (.typeRef false tyPing) ∧
    ("ref_body" : String) = "ref_body" ∧
    ("handle" : String) = "handle" :=
  (C7_holds ⟨"handle",
      [.receiver (.typeRef false tyWorker),
       .typed (some "msg") (.typeRef false tyPing)],
      .someTy (resultTy tyPong tyWErr), "ref_body"⟩).1
    ⟨tyPing, tyPong, tyWErr, tyWorker, "handle", .typeRef false tyWorker,
     .typeRef false tyPing, tyPong, tyWErr, "ref_body"⟩ rfl

/-- C8: a type declaration carrying exactly `#[actor(error = MyError)]`
yields the member-less marker implementation `ActorTrait<MyError>`; a
declaration whose actor attributes carry no "error" binding fails with an
error the spec's taxonomy (§4.5, §7) classifies as `MissingErrorAttribute`
(the missing-attribute panic, or the nested-parse failure). -/
theorem C8_holds (nm : String) (errTy : TypeExpr) (inp : DeriveInput) :
    derive_actor ⟨nm, [⟨"actor", [("error", errTy)]⟩]⟩ = .ok ⟨nm, errTy⟩ ∧
    ((∀ b ∈ actorBindings inp, b.1 ≠ "error") →
      ∃ err, derive_actor inp = .error err ∧
        err.isMissingErrorAttribute = true) := by
  refine ⟨rfl, ?_⟩
  intro h
  have h2 : ∀ a ∈ actorAttrs inp, ∀ b ∈ a.bindings, b.1 ≠ "error" := by
    intro a ha b hb
    refine h b ?_
    unfold actorBindings
    rw [List.mem_flatten]
    exact ⟨a.bindings, List.mem_map_of_mem _ ha, hb⟩
  rcases find_error_ty_no_error_none (actorAttrs inp) h2 with hok | herr
  · exact ⟨.missingErrorAttribute, by unfold derive_actor; rw [hok], rfl⟩
  · exact ⟨.unsupportedAttribute, by unfold derive_actor; rw [herr], rfl⟩

/-- C8 witness: `#[actor(error = MyError)]` on `Worker` succeeds with
`ActorTrait<MyError>`, and a `Worker` with no attributes at all fails with
a missing-error-attribute failure. -/
theorem C8_witness :
    derive_actor ⟨"Worker", [⟨"actor", [("error", tyMyError)]⟩]⟩
      = .ok ⟨"Worker", tyMyError⟩ ∧
    ∃ err, derive_actor ⟨"Worker", []⟩ = .error err ∧
      err.isMissingErrorAttribute = true :=
  ⟨(C8_holds "Worker" tyMyError ⟨"Worker", []⟩).1,
   (C8_holds "Worker" tyMyError ⟨"Worker", []⟩).2
     (fun b hb => absurd hb (by simp [actorBindings, actorAttrs]))⟩

/-- C9: for every marked handler function (ask or tell), a non-receiver
parameter whose declared name is not "msg" is silently ignored rather than
rejected: `(receiver, msg: M, extra: X) -> Result<R, E>` generates
successfully and the extra parameter is bound to no role — the emitted
implementation is built from the receiver, msg, success and error types
only, so `X` is absent from the trait parameterization. -/
theorem C9_holds (a m x r e : TypeExpr) (xn n b : String)
    (hx : xn ≠ "msg") :
    ask_handler ⟨n,
        [.receiver a, .typed (some "msg") m, .typed (some xn) x],
        .someTy (resultTy r e), b⟩
      = .ok ⟨strip_reference m, r, e, strip_reference a, n, a, m, r, e, b⟩ ∧
    tell_handler ⟨n,
        [.receiver a, .typed (some "msg") m, .typed (some xn) x],
        .someTy (resultTy r e), b⟩
      = .ok ⟨strip_reference m, e, strip_reference a, n, a, m, e, b⟩ := by
  have hscan : scan_args
      [FnArg.receiver a, FnArg.typed (some "msg") m, FnArg.typed (some xn) x]
      none none = (some a, some m) := by
    simp [scan_args, hx]
  exact ⟨ask_handler_ok_of_extract _ a m r e hscan
      (extract_result_types_ok r e [] []),
    tell_handler_ok_of_extract _ a m r e hscan
      (extract_result_types_ok r e [] [])⟩

/-- C9 witness: an extra parameter named "extra" of type `Counter` is
ignored by both markers and absent from the generated output. -/
theorem C9_witness :
    ask_handler ⟨"handle",
        [.receiver (.typeRef false tyWorker), .typed (some "msg") tyPing,
         .typed (some "extra") tyCounter],
        .someTy (resultTy tyPong tyWErr), "extra_body"⟩
      = .ok ⟨tyPing, tyPong, tyWErr, tyWorker, "handle",
             .typeRef false tyWorker, tyPing, tyPong, tyWErr, "extra_body"⟩ ∧
    tell_handler ⟨"handle",
        [.receiver (.typeRef false tyWorker), .typed (some "msg") tyPing,
         .typed (some "extra") tyCounter],
        .someTy (resultTy tyPong tyWErr), "extra_body"⟩
      = .ok ⟨tyPing, tyWErr, tyWorker, "handle",
             .typeRef false tyWorker, tyPing, tyWErr, "extra_body"⟩ :=
  C9_holds (.typeRef false tyWorker) tyPing tyCounter tyPong tyWErr
    "extra" "handle" "extra_body" (by decide)

/-- C10: when every nested binding of the `#[actor(...)]` attributes is
keyed "error", `derive_actor` accepts them all and the marker uses the value
of the LAST binding in declaration order (later bindings overwrite earlier
ones); a binding with any other key aborts generation with the
"unsupported attribute" error. -/
theorem C10_holds (inp : DeriveInput) (v : TypeExpr) :
    ((∀ b ∈ actorBindings inp, b.1 = "error") →
      (actorBindings inp).getLast? = some ("error", v) →
      derive_actor inp = .ok ⟨inp.ident, v⟩) ∧
    ((∃ b ∈ actorBindings inp, b.1 ≠ "error") →
      derive_actor inp = .error .unsupportedAttribute) := by
  constructor
  · intro hall hlast
    have h2 : ∀ a ∈ actorAttrs inp, ∀ b ∈ a.bindings, b.1 = "error" := by
      intro a ha b hb
      refine hall b ?_
      unfold actorBindings
      rw [List.mem_flatten]
      exact ⟨a.bindings, List.mem_map_of_mem _ ha, hb⟩
    have hfind := find_error_ty_all_error (actorAttrs inp) none h2
    have hfold : ((actorAttrs inp).map AttrNode.bindings).flatten.foldl
        (fun _ b => some b.2) none = some v := by
      have := foldl_some_snd_last (actorBindings inp) none ("error", v) hlast
      exact this
    unfold actorBindings at hfold
    rw [hfold] at hfind
    unfold derive_actor
    rw [hfind]
  · intro hbad
    obtain ⟨b, hb, hne⟩ := hbad
    unfold actorBindings at hb
    rw [List.mem_flatten] at hb
    obtain ⟨bs, hbs, hbmem⟩ := hb
    obtain ⟨a, ha, rfl⟩ := List.mem_map.1 hbs
    have hfind := find_error_ty_has_bad (actorAttrs inp) none
      ⟨a, ha, b, hbmem, hne⟩
    unfold derive_actor
    rw [hfind]

/-- C10 witness: two `#[actor(error = ...)]` attributes, binding `MyError`
then `OtherError`, generate the marker with the later `OtherError`. -/
theorem C10_witness :
    derive_actor ⟨"Worker",
        [⟨"actor", [("error", tyMyError)]⟩,
         ⟨"actor", [("error", tyOtherError)]⟩]⟩
      = .ok ⟨"Worker", tyOtherError⟩ :=
  (C10_holds ⟨"Worker",
      [⟨"actor", [("error", tyMyError)]⟩,
       ⟨"actor", [("error", tyOtherError)]⟩]⟩ tyOtherError).1
    (by
      intro b hb
      simp [actorBindings, actorAttrs] at hb
      rcases hb with rfl | rfl <;> rfl)
    rfl

end Ascolt

section SanityChecks
open Ascolt

example :
    ask_handler ⟨"handle",
      [.receiver (.typeRef false (.typePath [("Worker", none)])),
       .typed (some "msg") (.typePath [("Ping", none)])],
      .someTy (resultTy (.typePath [("Pong", none)]) (.typePath [("WorkerError", none)])),
      "ok_pong"⟩
    = .ok { traitMsg := .typePath [("Ping", none)]
            traitResp := .typePath [("Pong", none)]
            traitErr := .typePath [("WorkerError", none)]
            traitSelf := .typePath [("Worker", none)]
            methodName := "handle"
            methodSelfTy := .typeRef false (.typePath [("Worker", none)])
            methodMsgTy := .typePath [("Ping", none)]
            methodRespTy := .typePath [("Pong", none)]
            methodErrTy := .typePath [("WorkerError", none)]
            body := "ok_pong" } := rfl

example :
    extract_result_types (.someTy (.typePath [("std", none), ("result", none),
      ("Result", some [.typeOther 1, .typeOther 2])]))
    = .error .returnTypeMustBeResult := rfl

example :
    extract_result_types (.someTy (.typePath
      [("Result", some [.typeOther 1, .typeOther 2, .typeOther 3])]))
    = .ok (.typeOther 1, .typeOther 2) := rfl

end SanityChecks
